import Mathlib

/-!
Verification of the model-optimization pipeline of the
Reduced-DNN-Model-WebAPP repository (`app/model_optimizer.py`).

The Python code is shallowly embedded: every pure computation of the
source (size metrics, state-dict unwrapping, entry-point probing, the
dispatcher control flow) is translated into an executable Lean
definition, while the effectful library calls that the source merely
invokes (torch.load, load_state_dict, the torch-pruning pruner step,
disk writes) are supplied as explicit outcome parameters, so that the
control flow of the Python functions around those calls is modelled
exactly.  Python exceptions are modelled by `Except PyError`; Python
float arithmetic on the small, exactly representable values used by the
metrics code is modelled over `ℚ`, with the round-half-to-even rounding of
the Python built-in round and with the raising division by zero of
Python floats.
-/

/-- The dynamic type of a Python exception, as far as the source
`except` clauses distinguish them: `load_model` retries leniently only
on `RuntimeError` (line 81), the dispatcher raises `ValueError` for an
unknown technique (line 369), and float division by zero raises
`ZeroDivisionError`; everything else the source raises or catches is a
plain `Exception`. -/
inductive PyErrorKind
  | runtimeError
  | valueError
  | typeError
  | zeroDivisionError
  | genericError
deriving DecidableEq, Repr

/-- A Python exception: its dynamic kind and its `str(e)` message. -/
structure PyError where
  kind : PyErrorKind
  msg : String
deriving DecidableEq, Repr

/-- `raise Exception(f"<pre>{str(e)}")` applied to the error branch of a
computation: the ubiquitous source pattern of catching any exception
and re-raising a plain `Exception` with a message prefixed by context. -/
def wrapError (pre : String) (r : Except PyError α) : Except PyError α :=
  match r with
  | .ok a => .ok a
  | .error e => .error ⟨.genericError, pre ++ e.msg⟩

/-- Round a rational to the nearest integer, ties to the nearest even
integer: the rounding performed by the Python built-in round. -/
def roundHalfEven (q : ℚ) : ℤ :=
  if Int.fract q = 1 / 2 then
    if 2 ∣ ⌊q⌋ then ⌊q⌋ else ⌊q⌋ + 1
  else round q

/-- Evaluation of the Python call round(q, 2). -/
def pyRound2 (q : ℚ) : ℚ :=
  (roundHalfEven (q * 100) : ℚ) / 100

/-- `ModelOptimizer.get_model_size` (lines 104-107): the artifact size in
megabytes, rounded to two decimals, as a function of the file size in
bytes returned by `os.path.getsize`. -/
def get_model_size (sizeBytes : ℕ) : ℚ :=
  pyRound2 ((sizeBytes : ℚ) / (1024 * 1024))

/-- Python float division: raises `ZeroDivisionError` on a zero divisor
(it never yields NaN or infinity for a zero divisor). -/
def pyDiv (a b : ℚ) : Except PyError ℚ :=
  if b = 0 then .error ⟨.zeroDivisionError, "float division by zero"⟩
  else .ok (a / b)

/-- The metrics step of `ModelOptimizer.optimize_model` (line 385):
`round(((original_size - optimized_size) / original_size) * 100, 2)`,
with the raising Python semantics for the division. -/
def sizeReduction (originalSize optimizedSize : ℚ) : Except PyError ℚ :=
  match pyDiv (originalSize - optimizedSize) originalSize with
  | .error e => .error e
  | .ok r => .ok (pyRound2 (r * 100))

/-- The object deserialized from a weights file by `torch.load`: a
(string-keyed, insertion-ordered) Python dict whose values may nest, an
opaque tensor, or any other object. -/
inductive WeightBlob
  | dict (entries : List (String × WeightBlob))
  | tensor (id : ℕ)
  | object (id : ℕ)

/-- Python dict key lookup on the ordered entry list. -/
def dictGet (entries : List (String × WeightBlob)) (k : String) : Option WeightBlob :=
  match entries with
  | [] => none
  | (k', v) :: rest => if k' = k then some v else dictGet rest k

/-- The state-dict format reconciliation of `ModelOptimizer.load_model`
(lines 72-76): if the loaded object is a dict containing the key
`state_dict`, unwrap under it; else if it contains `model_state_dict`,
unwrap under that; otherwise use the object as-is. -/
def unwrapStateDict (b : WeightBlob) : WeightBlob :=
  match b with
  | .dict es =>
    match dictGet es "state_dict" with
    | some inner => inner
    | none =>
      match dictGet es "model_state_dict" with
      | some inner => inner
      | none => .dict es
  | b => b

/-- The observable result of a successful `ModelOptimizer.load_model`:
which application phase succeeded, whether `model.eval()` was called,
and the flat state dict that was applied. -/
structure LoadedModel where
  appliedStrict : Bool
  evalMode : Bool
  applied : WeightBlob

/-- The environment of one `ModelOptimizer.load_model` call on the
architecture-file path: the outcome of executing the architecture module
and instantiating the class (lines 37-66), the outcome of
`torch.load(model_path)` (line 69), and the behavior of the
instance method load_state_dict as a function of the strict flag and the state dict
handed to it. -/
structure LoadEnv where
  preOutcome : Except PyError Unit
  rawBlob : Except PyError WeightBlob
  applyWeights : Bool → WeightBlob → Except PyError Unit

/-- Lines 69-87 of `ModelOptimizer.load_model`: unwrap the loaded blob,
apply it with `strict=True`; if that raises a `RuntimeError`, warn and
retry with `strict=False`; then `model.eval()`. A strict failure of any
other kind is not retried (the `except` clause at line 81 names
`RuntimeError` only). -/
def loadWeightsPhase (applyWeights : Bool → WeightBlob → Except PyError Unit)
    (raw : WeightBlob) : Except PyError LoadedModel :=
  let sd := unwrapStateDict raw
  match applyWeights true sd with
  | .ok _ => .ok ⟨true, true, sd⟩
  | .error e =>
    if e.kind = .runtimeError then
      match applyWeights false sd with
      | .ok _ => .ok ⟨false, true, sd⟩
      | .error e2 => .error e2
    else .error e

/-- `ModelOptimizer.load_model` on the architecture-file path: the
module/class/instantiation phase, then `torch.load`, then the two-phase
weight application; any escaping exception is re-raised as
`Exception(f"Failed to load model: {str(e)}")` (line 94). -/
def load_model (env : LoadEnv) : Except PyError LoadedModel :=
  wrapError "Failed to load model: "
    (match env.preOutcome with
     | .error e => .error e
     | .ok _ =>
       match env.rawBlob with
       | .error e => .error e
       | .ok raw => loadWeightsPhase env.applyWeights raw)

/-- The kind of a module in `model.modules()` traversal order, as far as
the pruning code distinguishes them: `nn.Linear`, `nn.Conv2d`, or
anything else. -/
inductive LayerKind
  | linear
  | conv2d
  | otherModule
deriving DecidableEq, Repr

/-- Whether a module is eligible for pruning:
`isinstance(m, (nn.Linear, nn.Conv2d))`. -/
def isPrunable (k : LayerKind) : Bool :=
  k = .linear || k = .conv2d

/-- Enumeration pass behind `prunableIdx`: walk the module list,
keeping the traversal position of every prunable module, starting the
position count at `i`. -/
def prunableIdxAux (i : ℕ) : List LayerKind → List ℕ
  | [] => []
  | k :: rest =>
    if isPrunable k then i :: prunableIdxAux (i + 1) rest
    else prunableIdxAux (i + 1) rest

/-- The traversal positions of the prunable layers of a model, in
`model.modules()` order (a layer is identified by its position in the
traversal, which is how Python object identity in the source appears in
the embedding): the list comprehension of line 169. -/
def prunableIdx (layers : List LayerKind) : List ℕ :=
  prunableIdxAux 0 layers

/-- Lines 169-173 of `ModelOptimizer.prune_model`: collect the Linear
and Conv2d modules; if any exist, the ignored-layer list is the last one
alone, otherwise it is empty. -/
def ignoredLayers (layers : List LayerKind) : List ℕ :=
  match (prunableIdx layers).getLast? with
  | some i => [i]
  | none => []

/-- Lines 154-165 of `ModelOptimizer.prune_model`: resolve the
importance metric name; an unrecognized name falls back to `l1` with a
printed warning rather than failing. -/
def importanceFor (metric : String) : String :=
  if metric = "l1" then "l1"
  else if metric = "l2" then "l2"
  else if metric = "taylor" then "taylor"
  else if metric = "random" then "random"
  else "l1"

/-- A pruning operation actually applied to the model, recorded as a
transcript: one structured pruner pass with its configuration, or one
per-layer unstructured magnitude pruning whose mask was permanently
baked in by `prune.remove`. -/
inductive PruneAction
  | structured (amount : ℚ) (metric : String) (globalPruning : Bool)
      (ignored : List ℕ)
  | unstructuredBaked (layerIdx : ℕ) (amount : ℚ)
deriving DecidableEq, Repr

/-- The environment of one `ModelOptimizer.prune_model` call: the
module kinds in traversal order, the outcome of the structured
torch-pruning attempt (construction of the pruner plus `pruner.step()`,
lines 167-187), and for each layer position the outcome of the
unstructured fallback (`prune.l1_unstructured` plus `prune.remove`) on
it. -/
structure PruneEnv where
  layers : List LayerKind
  structuredRaises : Option PyError
  fallbackRaises : ℕ → Option PyError

/-- The fallback loop of lines 194-198: iterate over the modules in
traversal order, unstructured-prune and bake each Linear/Conv2d layer;
the first raising layer aborts the loop with its exception. -/
def runFallback (raises : ℕ → Option PyError) (amount : ℚ) :
    List ℕ → Except PyError (List PruneAction)
  | [] => .ok []
  | i :: rest =>
    match raises i with
    | some e => .error e
    | none =>
      match runFallback raises amount rest with
      | .error e => .error e
      | .ok acts => .ok (.unstructuredBaked i amount :: acts)

/-- `ModelOptimizer.prune_model` (lines 152-200): try a single
structured pruning pass at channel sparsity `amount` with the resolved
importance metric, the last prunable layer ignored, and the given
global-pruning flag; if anything in that block raises, fall back to
per-layer unstructured magnitude pruning at the same `amount` with the
mask baked in; if the fallback also raises, the technique fails with
`Exception(f"Pruning failed: {str(fallback_error)}")` — the message
wraps the fallback error only, the structured error is merely printed. -/
def prune_model (env : PruneEnv) (amount : ℚ)
    (importance_metric : String := "l1") (global_pruning : Bool := true) :
    Except PyError (List PruneAction) :=
  let imp := importanceFor importance_metric
  match env.structuredRaises with
  | none => .ok [.structured amount imp global_pruning (ignoredLayers env.layers)]
  | some _ =>
    match runFallback env.fallbackRaises amount (prunableIdx env.layers) with
    | .ok acts => .ok acts
    | .error e2 => .error ⟨.genericError, "Pruning failed: " ++ e2.msg⟩

/-- `ModelOptimizer.quantize_model` (lines 202-231): the torch
quantization calls are an external outcome; any exception is re-raised
as `Exception(f"Quantization failed: {str(e)}")`. -/
def quantize_model (outcome : Except PyError Unit) (quantizationType : String) :
    Except PyError Unit :=
  let _ := quantizationType
  wrapError "Quantization failed: " outcome

/-- A loaded training-script module, as the probing code observes it:
the `dir()` name listing and, for each name, whether `getattr` on it
yields a callable object. -/
structure TrainingModule where
  names : List String
  isCallable : String → Bool

/-- The fixed priority order of recognized training entry-point names
(line 285). -/
def trainingFunctionNames : List String :=
  ["train_crd", "train_distillation", "train", "distill"]

/-- Whether a probe of one candidate name succeeds: `hasattr` on the
module and `callable` on the attribute (lines 286-288). -/
def eligibleName (tm : TrainingModule) (n : String) : Bool :=
  tm.names.contains n && tm.isCallable n

/-- Lines 284-291 of `ModelOptimizer.crd_distillation`: the first name
of the priority list that is present and callable, if any. -/
def findTrainingFunction (tm : TrainingModule) : Option String :=
  trainingFunctionNames.find? (eligibleName tm)

/-- Lines 294-295: the diagnostic listing built when no entry point is
found — every name of the module that is callable and does not start
with an underscore, in listing order. -/
def availableCallable (tm : TrainingModule) : List String :=
  tm.names.filter (fun n => tm.isCallable n && !(n.startsWith "_"))

/-- Rendering of a Python list of strings by an f-string, as in
`f"Available functions: {available_funcs}"`. -/
def pyStrListRepr (xs : List String) : String :=
  "[" ++ String.intercalate ", " (xs.map (fun s => "\x27" ++ s ++ "\x27")) ++ "]"

/-- The message of the exception raised at lines 296-301 when no
training entry point is found: it lists the callable top-level names of
the script and states the expected call signature. -/
def noTrainingFunctionMsg (tm : TrainingModule) : String :=
  "No training function found in training script.\n" ++
  "Expected function names: \x27train_crd\x27, \x27train_distillation\x27, \x27train\x27, or \x27distill\x27\n" ++
  "Available functions: " ++ pyStrListRepr (availableCallable tm) ++ "\n" ++
  "Function signature should be: def train(teacher_model, student_model) -> trained_student"

/-- The message of the exception raised at line 317 when the training
function returns `None`. -/
def noneReturnMsg : String :=
  "Training function returned None. It should return the trained student model."

/-- The possible outcomes of calling the resolved training entry point
with the teacher and student models: it raises, returns `None`, or
returns a model (identified opaquely). -/
inductive TrainOutcome
  | raises (e : PyError)
  | returnsNone
  | returnsModel (id : ℕ)

/-- The environment of one `ModelOptimizer.crd_distillation` call: the
outcome of the steps before entry-point resolution (architecture module
load, student class resolution and instantiation, training-script
execution, lines 250-280), the loaded training module, and the behavior
of each candidate entry point when invoked. -/
structure CrdEnv where
  preOutcome : Except PyError Unit
  trainingModule : TrainingModule
  runTraining : String → TrainOutcome

/-- The body of `ModelOptimizer.crd_distillation` inside its `try`
(lines 244-323): after the preparatory steps, resolve the entry point,
invoke it, wrap a raise as `Training function failed: ...`, treat a
`None` return as its own failure, and otherwise return the trained
student. -/
def crdCore (env : CrdEnv) : Except PyError ℕ :=
  match env.preOutcome with
  | .error e => .error e
  | .ok _ =>
    match findTrainingFunction env.trainingModule with
    | none => .error ⟨.genericError, noTrainingFunctionMsg env.trainingModule⟩
    | some fname =>
      match env.runTraining fname with
      | .raises e => .error ⟨.genericError, "Training function failed: " ++ e.msg⟩
      | .returnsNone => .error ⟨.genericError, noneReturnMsg⟩
      | .returnsModel m => .ok m

/-- `ModelOptimizer.crd_distillation` (lines 233-328): any exception
escaping the body is re-raised as
`Exception(f"CRD distillation failed: {str(e)}")`. -/
def crd_distillation (env : CrdEnv) : Except PyError ℕ :=
  wrapError "CRD distillation failed: " (crdCore env)

/-- The keyword-argument mapping handed to the dispatcher, restricted to
the keys the pruning and quantization branches read; a `none` field is
an absent key, resolved by `kwargs.get` with the written default. -/
structure Kwargs where
  pruning_amount : Option ℤ := none
  quantization_type : Option String := none
  importance_metric : Option String := none
  global_pruning : Option Bool := none

/-- What the selected technique produced, kept as evidence of how the
strategy was invoked. -/
inductive TechOutput
  | pruned (actions : List PruneAction)
  | quantized
  | distilled (id : ℕ)
deriving DecidableEq, Repr

/-- The result dict of `ModelOptimizer.optimize_model`: a `none` field
is an absent key. The failure record of lines 398-401 carries only
`success` and `error`; the success record of lines 388-395 carries all
metric fields and no `error`. -/
structure OptResult where
  success : Bool
  technique : Option String
  original_size_mb : Option ℚ
  optimized_size_mb : Option ℚ
  size_reduction_percent : Option ℚ
  processing_time : Option ℚ
  error : Option String
deriving DecidableEq, Repr

/-- The failure record of lines 398-401: success False plus the error
message, nothing else. -/
def mkFailure (msg : String) : OptResult :=
  ⟨false, none, none, none, none, none, some msg⟩

/-- The environment of one `ModelOptimizer.optimize_model` call: the
environments of the callable steps, the input and output artifact sizes
in bytes, the outcomes of the disk writes, and the elapsed wall-clock
time. -/
structure OptimizeEnv where
  loadEnv : LoadEnv
  inputSizeBytes : ℕ
  pruneEnv : PruneEnv
  quantOutcome : Except PyError Unit
  crdEnv : CrdEnv
  saveOutcome : Except PyError Unit
  summaryWriteOutcome : Except PyError Unit
  outputSizeBytes : ℕ
  elapsed : ℚ

/-- The technique dispatch of `ModelOptimizer.optimize_model`
(lines 349-369). The pruning branch computes
`amount = kwargs.get("pruning_amount", 50) / 100.0` and calls
`self.prune_model(model, amount=amount)` — so `importance_metric` and
`global_pruning` take the defaults of `prune_model` (`"l1"`, `True`)
and the corresponding entries of `kwargs` are never read. An unknown
technique raises `ValueError(f"Unknown technique: {technique}")`. -/
def applyTechnique (env : OptimizeEnv) (technique : String) (kwargs : Kwargs) :
    Except PyError TechOutput :=
  if technique = "pruning" then
    let amount : ℚ := ((kwargs.pruning_amount.getD 50 : ℤ) : ℚ) / 100
    match prune_model env.pruneEnv amount with
    | .error e => .error e
    | .ok acts => .ok (.pruned acts)
  else if technique = "quantization" then
    match quantize_model env.quantOutcome (kwargs.quantization_type.getD "dynamic") with
    | .error e => .error e
    | .ok _ => .ok .quantized
  else if technique = "crd" then
    match crd_distillation env.crdEnv with
    | .error e => .error e
    | .ok m => .ok (.distilled m)
  else .error ⟨.valueError, "Unknown technique: " ++ technique⟩

/-- `ModelOptimizer.save_model` (lines 96-102): serialize the state
dict; any exception is re-raised as
`Exception(f"Failed to save model: {str(e)}")`. -/
def save_model (outcome : Except PyError Unit) : Except PyError Unit :=
  wrapError "Failed to save model: " outcome

/-- `ModelOptimizer.optimize_model` (lines 330-401): load the model,
measure the input artifact, dispatch the technique, save the optimized
model and its summary (summary generation itself never raises — it
catches everything, lines 130-150), measure the output artifact, and
compute the metrics; any exception anywhere in the chain is converted
by the `except` at line 397 into the failure record. -/
def optimize_model (env : OptimizeEnv) (technique : String) (kwargs : Kwargs) :
    OptResult :=
  match load_model env.loadEnv with
  | .error e => mkFailure e.msg
  | .ok _ =>
    let originalSize := get_model_size env.inputSizeBytes
    match applyTechnique env technique kwargs with
    | .error e => mkFailure e.msg
    | .ok _ =>
      match save_model env.saveOutcome with
      | .error e => mkFailure e.msg
      | .ok _ =>
        match env.summaryWriteOutcome with
        | .error e => mkFailure e.msg
        | .ok _ =>
          let optimizedSize := get_model_size env.outputSizeBytes
          match sizeReduction originalSize optimizedSize with
          | .error e => mkFailure e.msg
          | .ok sr =>
            { success := true
              technique := some technique
              original_size_mb := some originalSize
              optimized_size_mb := some optimizedSize
              size_reduction_percent := some sr
              processing_time := some (pyRound2 env.elapsed)
              error := none }

/-- Whether a blob is a dict carrying one of the two recognized nested
keys at top level — the condition under which `unwrapStateDict` does
not return its argument unchanged. -/
def hasRecognizedKey (b : WeightBlob) : Bool :=
  match b with
  | .dict es => (dictGet es "state_dict").isSome || (dictGet es "model_state_dict").isSome
  | _ => false

/-- An empty keyword-argument mapping: every `kwargs.get` takes its
written default. -/
def emptyKwargs : Kwargs := {}

/-- A training-script module exposing exactly one name, `distill`,
which is callable. -/
def okTrainingModule : TrainingModule := ⟨["distill"], fun _ => true⟩

/-- A distillation environment whose every step succeeds and whose
entry point returns a model. -/
def okCrdEnv : CrdEnv := ⟨.ok (), okTrainingModule, fun _ => .returnsModel 7⟩

/-- A flat one-tensor state dict. -/
def sampleBlob : WeightBlob := .dict [("w", .tensor 0)]

/-- A load environment whose every step succeeds with a strict weight
application. -/
def okLoadEnv : LoadEnv := ⟨.ok (), .ok sampleBlob, fun _ _ => .ok ()⟩

/-- A load environment whose strict weight application raises a
`TypeError` (as `load_state_dict` does when handed a non-mapping) while
the lenient application would succeed. -/
def typeErrorLoadEnv : LoadEnv :=
  ⟨.ok (), .ok sampleBlob,
   fun strict _ => if strict then .error ⟨.typeError, "strict boom"⟩ else .ok ()⟩

/-- A two-layer model whose structured pruning pass succeeds. -/
def okPruneEnv : PruneEnv := ⟨[.conv2d, .linear], none, fun _ => none⟩

/-- A three-module model whose structured pruning pass raises while
every per-layer unstructured fallback succeeds. -/
def fallbackPruneEnv : PruneEnv :=
  ⟨[.linear, .otherModule, .conv2d], some ⟨.genericError, "structured boom"⟩, fun _ => none⟩

/-- A model on which the structured pass raises and the unstructured
fallback raises as well, with two distinguishable messages. -/
def failingPruneEnv : PruneEnv :=
  ⟨[.conv2d, .linear], some ⟨.genericError, "structured boom"⟩,
   fun _ => some ⟨.genericError, "fallback boom"⟩⟩

/-- A flat mapping that itself carries a parameter named `state_dict` —
the shape on which one-shot unwrapping is not transparent. -/
def trickyInner : WeightBlob := .dict [("state_dict", .tensor 0)]

/-- A dispatcher environment in which every step succeeds but the input
artifact is 5242 bytes, so its size in megabytes rounds to zero. -/
def smallFileEnv : OptimizeEnv :=
  { loadEnv := okLoadEnv
    inputSizeBytes := 5242
    pruneEnv := okPruneEnv
    quantOutcome := .ok ()
    crdEnv := okCrdEnv
    saveOutcome := .ok ()
    summaryWriteOutcome := .ok ()
    outputSizeBytes := 3000
    elapsed := 1 }

/-- A dispatcher environment in which every step succeeds on a 10 MB
input producing a 6 MB output. -/
def bigFileEnv : OptimizeEnv :=
  { smallFileEnv with inputSizeBytes := 10485760, outputSizeBytes := 6291456 }

/-- The big-file environment with the pruning model whose structured
pass fails but whose fallback succeeds. -/
def fallbackOptEnv : OptimizeEnv := { bigFileEnv with pruneEnv := fallbackPruneEnv }

/-- A pruning parameter mapping that carries an explicit amount, an
explicit importance metric and an explicit global-pruning flag. -/
def kwargsC8 : Kwargs :=
  { pruning_amount := some 30, importance_metric := some "random", global_pruning := some false }

lemma roundHalfEven_eq_zero {q : ℚ} (h0 : 0 ≤ q) (h1 : q < 1 / 2) :
    roundHalfEven q = 0 := by
  unfold roundHalfEven
  rw [Int.fract_eq_self.mpr ⟨h0, by linarith⟩]
  rw [if_neg (by intro h; rw [h] at h1; exact absurd h1 (by norm_num))]
  rw [round_eq_zero_iff]
  constructor <;> [linarith; simpa using h1]

lemma get_model_size_eq_zero {n : ℕ} (h : n ≤ 5242) : get_model_size n = 0 := by
  unfold get_model_size pyRound2
  have hn : (n : ℚ) ≤ 5242 := by exact_mod_cast h
  have h0 : (0 : ℚ) ≤ (n : ℚ) / (1024 * 1024) * 100 := by positivity
  have h1 : (n : ℚ) / (1024 * 1024) * 100 < 1 / 2 := by
    rw [div_mul_eq_mul_div, div_lt_iff₀ (by norm_num)]
    linarith
  rw [roundHalfEven_eq_zero h0 h1]
  norm_num

lemma runFallback_ok_of_none (raises : ℕ → Option PyError) (amount : ℚ)
    (l : List ℕ) (h : ∀ i ∈ l, raises i = none) :
    runFallback raises amount l = .ok (l.map (.unstructuredBaked · amount)) := by
  induction l with
  | nil => rfl
  | cons i rest ih =>
    have hi : raises i = none := h i (List.mem_cons_self i rest)
    have hrest := ih (fun j hj => h j (List.mem_cons_of_mem i hj))
    simp [runFallback, hi, hrest]

lemma mem_prunableIdxAux {j i : ℕ} {l : List LayerKind} :
    j ∈ prunableIdxAux i l ↔
      ∃ k, ∃ h : k < l.length, j = i + k ∧ isPrunable (l.get ⟨k, h⟩) = true := by
  induction l generalizing i with
  | nil => simp [prunableIdxAux]
  | cons a rest ih =>
    by_cases ha : isPrunable a
    · simp only [prunableIdxAux, if_pos ha, List.mem_cons, ih]
      constructor
      · rintro (rfl | ⟨k, hk, rfl, hp⟩)
        · exact ⟨0, by simp, by simp, by simpa using ha⟩
        · exact ⟨k + 1, by simpa using hk, by omega, by simpa using hp⟩
      · rintro ⟨k, hk, rfl, hp⟩
        cases k with
        | zero => left; simp
        | succ k =>
          right
          exact ⟨k, by simpa using hk, by omega, by simpa using hp⟩
    · simp only [prunableIdxAux, if_neg ha, ih]
      constructor
      · rintro ⟨k, hk, rfl, hp⟩
        exact ⟨k + 1, by simpa using hk, by omega, by simpa using hp⟩
      · rintro ⟨k, hk, rfl, hp⟩
        cases k with
        | zero => exact absurd (by simpa using hp) ha
        | succ k =>
          exact ⟨k, by simpa using hk, by omega, by simpa using hp⟩

lemma prunableIdxAux_pairwise (i : ℕ) (l : List LayerKind) :
    (prunableIdxAux i l).Pairwise (· < ·) := by
  induction l generalizing i with
  | nil => simp [prunableIdxAux]
  | cons a rest ih =>
    by_cases ha : isPrunable a
    · simp only [prunableIdxAux, if_pos ha]
      refine List.Pairwise.cons ?_ (ih (i + 1))
      intro j hj
      obtain ⟨k, _, rfl, _⟩ := mem_prunableIdxAux.mp hj
      omega
    · simpa only [prunableIdxAux, if_neg ha] using ih (i + 1)

lemma getLast?_max_of_pairwise {l : List ℕ} {m : ℕ}
    (hs : l.Pairwise (· < ·)) (hm : l.getLast? = some m) :
    ∀ j ∈ l, j ≤ m := by
  induction l with
  | nil => simp at hm
  | cons a rest ih =>
    intro j hj
    cases rest with
    | nil =>
      simp at hm hj
      omega
    | cons b t =>
      rw [List.getLast?_cons_cons] at hm
      have hmem : m ∈ b :: t := by
        obtain ⟨hne, rfl⟩ := List.mem_getLast?_eq_getLast hm
        exact List.getLast_mem hne
      rcases List.mem_cons.mp hj with rfl | hj2
      · exact le_of_lt ((List.pairwise_cons.mp hs).1 m hmem)
      · exact ih (List.pairwise_cons.mp hs).2 hm j hj2

lemma trainingMsg_ne_noneMsg (s : String) :
    "Training function failed: " ++ s ≠ noneReturnMsg := by
  intro h
  have h2 := congrArg (fun t => t.data[18]?) h
  simp only at h2
  rw [String.data_append, List.getElem?_append_left (by decide)] at h2
  exact absurd h2 (by decide)

lemma roundHalfEven_intCast (n : ℤ) : roundHalfEven (n : ℚ) = n := by
  unfold roundHalfEven
  rw [Int.fract_intCast]
  rw [if_neg (by norm_num)]
  exact round_intCast n

lemma unwrapStateDict_eq_self {v : WeightBlob} (hv : hasRecognizedKey v = false) :
    unwrapStateDict v = v := by
  cases v with
  | dict es =>
    have hv2 : ((dictGet es "state_dict").isSome
        || (dictGet es "model_state_dict").isSome) = false := hv
    rw [Bool.or_eq_false_iff] at hv2
    obtain ⟨h1, h2⟩ := hv2
    cases hsd : dictGet es "state_dict" with
    | some w => rw [hsd] at h1; simp at h1
    | none =>
      cases hmd : dictGet es "model_state_dict" with
      | some w => rw [hmd] at h2; simp at h2
      | none => simp [unwrapStateDict, hsd, hmd]
  | tensor id => rfl
  | object id => rfl

/-- C3: for all original and optimized artifact sizes with original
nonzero, the size-reduction percentage equals
`round(((original - optimized) / original) * 100, 2)` — so 10 MB to
6 MB yields exactly 40.0 — and when the original size is zero the
computation fails with the divide-by-zero error instead of raising an
unhandled arithmetic exception or producing a NaN. -/
theorem spec_C3_size_reduction_metric :
    (∀ o opt : ℚ, o ≠ 0 →
      sizeReduction o opt = .ok (pyRound2 ((o - opt) / o * 100))) ∧
    sizeReduction 10 6 = .ok 40 ∧
    (∀ opt : ℚ, sizeReduction 0 opt =
      .error ⟨.zeroDivisionError, "float division by zero"⟩) := by
  refine ⟨?_, ?_, ?_⟩
  · intro o opt h
    simp [sizeReduction, pyDiv, h]
  · have h1 : sizeReduction 10 6 = .ok (pyRound2 ((10 - 6) / 10 * 100)) := by
      simp [sizeReduction, pyDiv]
    rw [h1, show ((10 - 6 : ℚ) / 10 * 100) = ((40 : ℤ) : ℚ) by norm_num]
    unfold pyRound2
    rw [show (((40 : ℤ) : ℚ) * 100) = ((4000 : ℤ) : ℚ) by push_cast; ring]
    rw [roundHalfEven_intCast]
    norm_num
  · intro opt
    simp [sizeReduction, pyDiv]

/-- Closed instance of the C3 theorem: the nonzero-original branch at
original = 10, optimized = 6. -/
theorem spec_C3_witness :
    sizeReduction 10 6 = .ok (pyRound2 ((10 - 6) / 10 * 100)) :=
  spec_C3_size_reduction_metric.1 10 6 (by norm_num)

/-- C10: any input file of at most 5242 bytes has a computed size of
0.0 MB after the two-decimal rounding, so a request on such a file
whose load, transformation and artifact-saving steps all succeed still
returns the failure record produced by the division in the metrics
step. -/
theorem spec_C10_small_input_fails :
    ∀ (env : OptimizeEnv) (technique : String) (kwargs : Kwargs),
      env.inputSizeBytes ≤ 5242 →
      (∃ m, load_model env.loadEnv = .ok m) →
      (∃ t, applyTechnique env technique kwargs = .ok t) →
      save_model env.saveOutcome = .ok () →
      env.summaryWriteOutcome = .ok () →
      get_model_size env.inputSizeBytes = 0 ∧
      optimize_model env technique kwargs = mkFailure "float division by zero" := by
  rintro env technique kwargs hsize ⟨m, hload⟩ ⟨t, htech⟩ hsave hsumm
  have h0 := get_model_size_eq_zero hsize
  refine ⟨h0, ?_⟩
  simp [optimize_model, hload, htech, hsave, hsumm, h0, sizeReduction, pyDiv]

/-- Closed instance of the C10 theorem at a 5242-byte input on the
pruning path with every other step succeeding. -/
theorem spec_C10_witness :
    get_model_size smallFileEnv.inputSizeBytes = 0 ∧
    optimize_model smallFileEnv "pruning" emptyKwargs =
      mkFailure "float division by zero" :=
  spec_C10_small_input_fails smallFileEnv "pruning" emptyKwargs (by decide)
    ⟨_, rfl⟩ ⟨_, rfl⟩ rfl rfl

/-- C1: the dispatcher is total — every call returns either a success
record carrying all metric fields and no error, or the bare failure
record carrying only the message; and when the technique is not one of
the three enumerated names (and the chain reaches the dispatch), the
failure message is the unknown-technique one. -/
theorem spec_C1_dispatcher_boundary :
    ∀ (env : OptimizeEnv) (technique : String) (kwargs : Kwargs),
      ((∃ msg, optimize_model env technique kwargs = mkFailure msg) ∨
        ((optimize_model env technique kwargs).success = true ∧
         (optimize_model env technique kwargs).error = none ∧
         (optimize_model env technique kwargs).technique = some technique ∧
         (∃ a, (optimize_model env technique kwargs).original_size_mb = some a) ∧
         (∃ b, (optimize_model env technique kwargs).optimized_size_mb = some b) ∧
         (∃ c, (optimize_model env technique kwargs).size_reduction_percent = some c) ∧
         (∃ d, (optimize_model env technique kwargs).processing_time = some d))) ∧
      (technique ≠ "pruning" → technique ≠ "quantization" → technique ≠ "crd" →
        (∃ m, load_model env.loadEnv = .ok m) →
        optimize_model env technique kwargs =
          mkFailure ("Unknown technique: " ++ technique)) := by
  intro env technique kwargs
  constructor
  · cases hload : load_model env.loadEnv with
    | error e => exact Or.inl ⟨e.msg, by simp [optimize_model, hload]⟩
    | ok m =>
      cases htech : applyTechnique env technique kwargs with
      | error e => exact Or.inl ⟨e.msg, by simp [optimize_model, hload, htech]⟩
      | ok t =>
        cases hsave : save_model env.saveOutcome with
        | error e => exact Or.inl ⟨e.msg, by simp [optimize_model, hload, htech, hsave]⟩
        | ok u =>
          cases hsumm : env.summaryWriteOutcome with
          | error e =>
            exact Or.inl ⟨e.msg, by simp [optimize_model, hload, htech, hsave, hsumm]⟩
          | ok v =>
            cases hsr : sizeReduction (get_model_size env.inputSizeBytes)
                (get_model_size env.outputSizeBytes) with
            | error e =>
              exact Or.inl ⟨e.msg,
                by simp [optimize_model, hload, htech, hsave, hsumm, hsr]⟩
            | ok sr =>
              refine Or.inr ?_
              simp [optimize_model, hload, htech, hsave, hsumm, hsr]
  · rintro h1 h2 h3 ⟨m, hm⟩
    simp [optimize_model, hm, applyTechnique, h1, h2, h3]

/-- Closed instance of the C1 theorem: a request with the unrecognized
technique name distillation fails with the unknown-technique message. -/
theorem spec_C1_witness :
    optimize_model bigFileEnv "distillation" emptyKwargs =
      mkFailure ("Unknown technique: " ++ "distillation") :=
  (spec_C1_dispatcher_boundary bigFileEnv "distillation" emptyKwargs).2
    (by decide) (by decide) (by decide) ⟨_, rfl⟩

/-- C2 (amended): if structured pruning raises, the strategy falls back
to unstructured magnitude pruning applied per eligible layer at the
same amount with the mask baked in, and the request then reports
success; if the fallback also raises, the technique fails with a
message wrapping only the fallback error (the structured error is
printed as a diagnostic but not included in the raised failure). -/
theorem spec_C2_pruning_fallback :
    ∀ (env : PruneEnv) (amount : ℚ) (metric : String) (g : Bool) (e : PyError),
      env.structuredRaises = some e →
      ((∀ i ∈ prunableIdx env.layers, env.fallbackRaises i = none) →
        prune_model env amount metric g =
          .ok ((prunableIdx env.layers).map (.unstructuredBaked · amount))) ∧
      (∀ e2, runFallback env.fallbackRaises amount (prunableIdx env.layers) = .error e2 →
        prune_model env amount metric g =
          .error ⟨.genericError, "Pruning failed: " ++ e2.msg⟩) ∧
      (∀ (oenv : OptimizeEnv) (kwargs : Kwargs),
        oenv.pruneEnv = env →
        (∃ m, load_model oenv.loadEnv = .ok m) →
        (∀ i ∈ prunableIdx env.layers, env.fallbackRaises i = none) →
        save_model oenv.saveOutcome = .ok () →
        oenv.summaryWriteOutcome = .ok () →
        get_model_size oenv.inputSizeBytes ≠ 0 →
        (optimize_model oenv "pruning" kwargs).success = true) := by
  intro env amount metric g e hs
  refine ⟨?_, ?_, ?_⟩
  · intro hall
    simp [prune_model, hs, runFallback_ok_of_none _ _ _ hall]
  · intro e2 hrun
    simp [prune_model, hs, hrun]
  · rintro oenv kwargs henv ⟨m, hm⟩ hall hsave hsumm hsz
    have htech : applyTechnique oenv "pruning" kwargs =
        .ok (.pruned ((prunableIdx env.layers).map
          (.unstructuredBaked · (((kwargs.pruning_amount.getD 50 : ℤ) : ℚ) / 100)))) := by
      simp [applyTechnique, henv, prune_model, hs,
        runFallback_ok_of_none _ _ _ hall]
    cases hsr : sizeReduction (get_model_size oenv.inputSizeBytes)
        (get_model_size oenv.outputSizeBytes) with
    | error e3 =>
      rw [sizeReduction, pyDiv, if_neg hsz] at hsr
      cases hsr
    | ok sr =>
      simp [optimize_model, hm, htech, hsave, hsumm, hsr]

/-- Closed instance of the amended C2 theorem: on a model whose
structured pass raises, the fallback prunes and bakes every eligible
layer at the same amount. -/
theorem spec_C2_witness :
    prune_model fallbackPruneEnv (1 / 2) "l1" true =
      .ok ((prunableIdx fallbackPruneEnv.layers).map (.unstructuredBaked · (1 / 2))) :=
  (spec_C2_pruning_fallback fallbackPruneEnv (1 / 2) "l1" true
    ⟨.genericError, "structured boom"⟩ rfl).1 (fun _ _ => rfl)

/-- C2 counterexample: when both the structured pass and the fallback
raise, the raised failure wraps only the fallback error — its message
does not contain the structured error text, so the claim that both
underlying errors are wrapped is false. -/
theorem spec_C2_counterexample :
    prune_model failingPruneEnv (1 / 2) =
      .error ⟨.genericError, "Pruning failed: fallback boom"⟩ ∧
    ¬ List.IsInfix "structured boom".data "Pruning failed: fallback boom".data := by
  constructor
  · rfl
  · decide

/-- C9: the prunable layers are exactly the Linear and Conv2d modules
of the traversal; when at least one exists the ignored-layer list is
exactly the last one in traversal order (the maximal position), and
when none exists the ignored-layer list is empty. -/
theorem spec_C9_prunable_and_ignored :
    ∀ layers : List LayerKind,
      (∀ i, i ∈ prunableIdx layers ↔
        ∃ k, layers[i]? = some k ∧ isPrunable k = true) ∧
      (∀ i, (prunableIdx layers).getLast? = some i →
        ignoredLayers layers = [i] ∧ i ∈ prunableIdx layers ∧
          ∀ j ∈ prunableIdx layers, j ≤ i) ∧
      (prunableIdx layers = [] → ignoredLayers layers = []) := by
  intro layers
  refine ⟨?_, ?_, ?_⟩
  · intro i
    rw [prunableIdx, mem_prunableIdxAux]
    constructor
    · rintro ⟨k, hk, hik, hp⟩
      have hik2 : i = k := by omega
      subst hik2
      exact ⟨layers.get ⟨i, hk⟩, by rw [List.getElem?_eq_getElem hk]; rfl, hp⟩
    · rintro ⟨k, hget, hp⟩
      have hlen : i < layers.length := by
        by_contra hcon
        rw [List.getElem?_eq_none (by omega)] at hget
        cases hget
      have h3 := List.getElem?_eq_getElem hlen
      rw [hget] at h3
      refine ⟨i, hlen, by omega, ?_⟩
      rw [show layers.get ⟨i, hlen⟩ = k from (Option.some.inj h3).symm]
      exact hp
  · intro i hl
    refine ⟨by simp [ignoredLayers, hl], ?_, ?_⟩
    · obtain ⟨hne, rfl⟩ := List.mem_getLast?_eq_getLast hl
      exact List.getLast_mem hne
    · exact getLast?_max_of_pairwise (prunableIdxAux_pairwise 0 layers) hl
  · intro h
    simp [ignoredLayers, h]

/-- Closed instance of the C9 theorem: on a Linear, non-prunable,
Conv2d traversal the ignored list is the last prunable position. -/
theorem spec_C9_witness :
    ignoredLayers [LayerKind.linear, .otherModule, .conv2d] = [2] ∧
    2 ∈ prunableIdx [LayerKind.linear, .otherModule, .conv2d] ∧
    ∀ j ∈ prunableIdx [LayerKind.linear, .otherModule, .conv2d], j ≤ 2 :=
  (spec_C9_prunable_and_ignored _).2.1 2 rfl

/-- C8 (amended): the dispatcher converts the supplied pruning amount
(defaulting to 50) to a fraction by dividing by 100, but invokes the
pruning strategy with its built-in defaults — importance metric l1 and
global pruning on; caller-supplied importance-metric and
global-pruning entries of the parameter mapping are not forwarded. -/
theorem spec_C8_amount_conversion :
    ∀ (env : OptimizeEnv) (kwargs : Kwargs),
      env.pruneEnv.structuredRaises = none →
      applyTechnique env "pruning" kwargs =
        .ok (.pruned [.structured (((kwargs.pruning_amount.getD 50 : ℤ) : ℚ) / 100)
          "l1" true (ignoredLayers env.pruneEnv.layers)]) := by
  intro env kwargs h
  simp [applyTechnique, prune_model, h, importanceFor]

/-- Closed instance of the amended C8 theorem: with an explicit amount
of 30 the strategy is invoked at fraction 30/100, metric l1, global
pruning on. -/
theorem spec_C8_witness :
    applyTechnique bigFileEnv "pruning" kwargsC8 =
      .ok (.pruned [.structured (((kwargsC8.pruning_amount.getD 50 : ℤ) : ℚ) / 100)
        "l1" true (ignoredLayers bigFileEnv.pruneEnv.layers)]) :=
  spec_C8_amount_conversion bigFileEnv kwargsC8 rfl

/-- C8 counterexample: a parameter mapping carrying importance metric
random and global pruning off still reaches the strategy as metric l1
with global pruning on — the claim that the dispatcher supplies the
caller values to the strategy is false. -/
theorem spec_C8_counterexample :
    applyTechnique bigFileEnv "pruning" kwargsC8 =
      .ok (.pruned [.structured (30 / 100 : ℚ) "l1" true [1]]) ∧
    kwargsC8.importance_metric = some "random" ∧
    kwargsC8.global_pruning = some false ∧
    "l1" ≠ "random" ∧ (true : Bool) ≠ false := by
  refine ⟨rfl, rfl, rfl, by decide, by decide⟩

/-- C4 (amended): the materializer applies weights strictly first; when
the strict application raises a RuntimeError it warns and retries with
the lenient application, whose failure propagates wrapped as the
load-failure message with no partially-loaded instance returned, and a
successful load yields an instance in eval mode; a strict failure of
any other exception kind propagates directly without a lenient
retry. -/
theorem spec_C4_two_phase_loading :
    ∀ (env : LoadEnv) (raw : WeightBlob),
      env.preOutcome = .ok () → env.rawBlob = .ok raw →
      ((env.applyWeights true (unwrapStateDict raw) = .ok () →
        load_model env = .ok ⟨true, true, unwrapStateDict raw⟩) ∧
       (∀ e, env.applyWeights true (unwrapStateDict raw) = .error e →
        e.kind = .runtimeError →
        ((env.applyWeights false (unwrapStateDict raw) = .ok () →
          load_model env = .ok ⟨false, true, unwrapStateDict raw⟩) ∧
         (∀ e2, env.applyWeights false (unwrapStateDict raw) = .error e2 →
          load_model env =
            .error ⟨.genericError, "Failed to load model: " ++ e2.msg⟩))) ∧
       (∀ e, env.applyWeights true (unwrapStateDict raw) = .error e →
        e.kind ≠ .runtimeError →
        load_model env =
          .error ⟨.genericError, "Failed to load model: " ++ e.msg⟩)) := by
  intro env raw hpre hraw
  refine ⟨?_, ?_, ?_⟩
  · intro h
    simp [load_model, hpre, hraw, loadWeightsPhase, h, wrapError]
  · intro e h1 hk
    constructor
    · intro h2
      simp [load_model, hpre, hraw, loadWeightsPhase, h1, h2, hk, wrapError]
    · intro e2 h2
      simp [load_model, hpre, hraw, loadWeightsPhase, h1, h2, hk, wrapError]
  · intro e h1 hk
    simp [load_model, hpre, hraw, loadWeightsPhase, h1, hk, wrapError]

/-- Closed instance of the amended C4 theorem: a successful strict
application yields the loaded instance in eval mode. -/
theorem spec_C4_witness :
    load_model okLoadEnv = .ok ⟨true, true, unwrapStateDict sampleBlob⟩ :=
  (spec_C4_two_phase_loading okLoadEnv sampleBlob rfl rfl).1 rfl

/-- C4 counterexample: a strict application failing with a TypeError is
not retried leniently even though the lenient application would
succeed — the whole load fails, so the claim that any strict failure
triggers the lenient retry is false. -/
theorem spec_C4_counterexample :
    typeErrorLoadEnv.applyWeights false (unwrapStateDict sampleBlob) = .ok () ∧
    load_model typeErrorLoadEnv =
      .error ⟨.genericError, "Failed to load model: strict boom"⟩ :=
  ⟨rfl, rfl⟩

/-- C7 (amended): unwrapping prefers the key state_dict, then
model_state_dict, and otherwise treats the mapping as flat; for blobs
wrapped under either recognized key whose inner mapping does not itself
carry a recognized key at top level, materialization recovers the same
flat mapping — and hence the same loaded model — as if the inner
mapping had been supplied directly; the side condition is necessary
because unwrapping is applied once, not recursively. -/
theorem spec_C7_unwrap_transparency :
    (∀ es : List (String × WeightBlob),
      (∀ v, dictGet es "state_dict" = some v →
        unwrapStateDict (.dict es) = v) ∧
      (dictGet es "state_dict" = none →
        ∀ v, dictGet es "model_state_dict" = some v →
        unwrapStateDict (.dict es) = v) ∧
      (dictGet es "state_dict" = none → dictGet es "model_state_dict" = none →
        unwrapStateDict (.dict es) = .dict es) ∧
      (∀ v, dictGet es "state_dict" = some v → hasRecognizedKey v = false →
        unwrapStateDict (.dict es) = unwrapStateDict v) ∧
      (dictGet es "state_dict" = none →
        ∀ v, dictGet es "model_state_dict" = some v → hasRecognizedKey v = false →
        unwrapStateDict (.dict es) = unwrapStateDict v)) ∧
    (∀ (applyW : Bool → WeightBlob → Except PyError Unit) (b1 b2 : WeightBlob),
      unwrapStateDict b1 = unwrapStateDict b2 →
      loadWeightsPhase applyW b1 = loadWeightsPhase applyW b2) := by
  constructor
  · intro es
    refine ⟨?_, ?_, ?_, ?_, ?_⟩
    · intro v h
      simp [unwrapStateDict, h]
    · intro h1 v h2
      simp [unwrapStateDict, h1, h2]
    · intro h1 h2
      simp [unwrapStateDict, h1, h2]
    · intro v h hv
      rw [unwrapStateDict_eq_self hv]
      simp [unwrapStateDict, h]
    · intro h1 v h2 hv
      rw [unwrapStateDict_eq_self hv]
      simp [unwrapStateDict, h1, h2]
  · intro applyW b1 b2 h
    simp only [loadWeightsPhase, h]

/-- Closed instance of the amended C7 theorem: a blob wrapped under
state_dict around a flat mapping unwraps to the same state dict as the
flat mapping supplied directly. -/
theorem spec_C7_witness :
    unwrapStateDict (.dict [("state_dict", sampleBlob)]) = unwrapStateDict sampleBlob :=
  (spec_C7_unwrap_transparency.1 [("state_dict", sampleBlob)]).2.2.2.1 sampleBlob rfl rfl

/-- C7 counterexample: when the inner mapping itself carries a
parameter named state_dict, the wrapped blob and the directly supplied
inner mapping materialize to different state dicts, so unconditional
transparency is false. -/
theorem spec_C7_counterexample :
    unwrapStateDict (.dict [("state_dict", trickyInner)]) = trickyInner ∧
    unwrapStateDict trickyInner = .tensor 0 ∧
    trickyInner ≠ .tensor 0 :=
  ⟨rfl, rfl, fun h => by rw [trickyInner] at h; cases h⟩

/-- C5: the training entry point is resolved by probing train_crd,
train_distillation, train, distill in exactly that priority order,
selecting the first name that is present and callable — so a script
exposing only distill has it selected; when none qualifies, the
request fails with a message listing the callable top-level names of
the script and stating the expected signature. -/
theorem spec_C5_entry_point_resolution :
    (∀ tm : TrainingModule,
      findTrainingFunction tm =
        (cond (eligibleName tm "train_crd") (some "train_crd")
          (cond (eligibleName tm "train_distillation") (some "train_distillation")
            (cond (eligibleName tm "train") (some "train")
              (cond (eligibleName tm "distill") (some "distill") none))))) ∧
    (∀ tm : TrainingModule,
      eligibleName tm "train_crd" = false →
      eligibleName tm "train_distillation" = false →
      eligibleName tm "train" = false →
      eligibleName tm "distill" = true →
      findTrainingFunction tm = some "distill") ∧
    (∀ (tm : TrainingModule) (n : String),
      n ∈ availableCallable tm ↔
        (n ∈ tm.names ∧ tm.isCallable n = true ∧ n.startsWith "_" = false)) ∧
    (∀ env : CrdEnv,
      env.preOutcome = .ok () →
      findTrainingFunction env.trainingModule = none →
      crd_distillation env = .error ⟨.genericError,
        "CRD distillation failed: " ++ noTrainingFunctionMsg env.trainingModule⟩) := by
  refine ⟨?_, ?_, ?_, ?_⟩
  · intro tm
    simp only [findTrainingFunction, trainingFunctionNames, List.find?]
    cases eligibleName tm "train_crd" <;>
      cases eligibleName tm "train_distillation" <;>
        cases eligibleName tm "train" <;>
          cases eligibleName tm "distill" <;> rfl
  · intro tm h1 h2 h3 h4
    simp [findTrainingFunction, trainingFunctionNames, List.find?, h1, h2, h3, h4]
  · intro tm n
    simp [availableCallable, List.mem_filter]
  · intro env hpre hfind
    simp [crd_distillation, crdCore, hpre, hfind, wrapError]

/-- Closed instance of the C5 theorem: a module exposing only the
callable name distill resolves to distill. -/
theorem spec_C5_witness :
    findTrainingFunction okTrainingModule = some "distill" :=
  spec_C5_entry_point_resolution.2.1 okTrainingModule rfl rfl rfl rfl

/-- C6: invoking the resolved entry point reports a raise as the
training-function-failed message, a None return as the distinct
returned-None message, and otherwise the returned value becomes the
transformed model. -/
theorem spec_C6_training_invocation :
    ∀ (env : CrdEnv) (fname : String),
      env.preOutcome = .ok () →
      findTrainingFunction env.trainingModule = some fname →
      ((∀ e, env.runTraining fname = .raises e →
        crd_distillation env = .error ⟨.genericError,
          "CRD distillation failed: " ++ ("Training function failed: " ++ e.msg)⟩) ∧
       (env.runTraining fname = .returnsNone →
        crd_distillation env = .error ⟨.genericError,
          "CRD distillation failed: " ++ noneReturnMsg⟩) ∧
       (∀ e : PyError, "Training function failed: " ++ e.msg ≠ noneReturnMsg) ∧
       (∀ m, env.runTraining fname = .returnsModel m →
        crd_distillation env = .ok m)) := by
  intro env fname hpre hfind
  refine ⟨?_, ?_, ?_, ?_⟩
  · intro e h
    simp [crd_distillation, crdCore, hpre, hfind, h, wrapError]
  · intro h
    simp [crd_distillation, crdCore, hpre, hfind, h, wrapError]
  · intro e
    exact trainingMsg_ne_noneMsg e.msg
  · intro m h
    simp [crd_distillation, crdCore, hpre, hfind, h, wrapError]

/-- Closed instance of the C6 theorem: an entry point returning a model
makes it the transformed model. -/
theorem spec_C6_witness :
    crd_distillation okCrdEnv = .ok 7 :=
  (spec_C6_training_invocation okCrdEnv "distill" rfl rfl).2.2.2 7 rfl
